import Mathlib

/-!
Shallow embedding of the popu-agent pipeline (src/main.py, src/tools.py,
src/config.py, src/agents/synthesizer.py) together with theorems checking the
natural-language specification against it.

Conventions of the embedding:
* Python strings are Lean `String`s; python truthiness of a string is `s ≠ ""`.
* A python function that may raise is modelled as returning `Except String α`,
  where `Except.error e` stands for a raised exception with `str(ex) = e`.
* The nondeterministic outcomes of upstream network calls (Tavily search
  attempts, per-stage agent runs) are supplied as explicit oracles in an
  environment record, so the control flow of the source is a pure function of
  that environment.
* `time.sleep` calls are recorded as the list of slept durations (in seconds).
-/

namespace PopuAgent

/-- Python `needle in hay` substring test on strings. -/
def strContains (hay needle : String) : Bool :=
  hay.data.tails.any (fun t => needle.data.isPrefixOf t)

/-! ## src/tools.py — the Tavily search tool (`fetch_policy_data`) -/

/-- One entry of the `results` list of a Tavily response.  `content` and
`raw_content` model the optional dictionary keys of the same names. -/
structure TavilyResult where
  title : String
  url : String
  content : Option String
  raw_content : Option String

/-- A Tavily response; `results = none` models a response dictionary without a
`results` key. -/
structure TavilyResponse where
  results : Option (List TavilyResult)

/-- `result.get('raw_content', result.get('content', ''))` from
src/tools.py line 46. -/
def resultContent (r : TavilyResult) : String :=
  r.raw_content.getD (r.content.getD "")

/-- The block built for one search result (src/tools.py line 47). -/
def formatResult (r : TavilyResult) : String :=
  "Source: " ++ r.title ++ "\nURL: " ++ r.url ++ "\nData: " ++ resultContent r

/-- The `context` list accumulated from a response (src/tools.py lines 42-47):
empty when the response has no `results` key. -/
def tavilyContext (resp : TavilyResponse) : List String :=
  match resp.results with
  | some rs => rs.map formatResult
  | none => []

/-- `"\n\n".join(context) if context else "No results found."`
(src/tools.py line 49). -/
def tavilyResultText (resp : TavilyResponse) : String :=
  let context := tavilyContext resp
  if context.isEmpty then "No results found." else String.intercalate "\n\n" context

/-- Python `str.lower()`, character by character. -/
def strToLower (s : String) : String :=
  String.mk (s.data.map Char.toLower)

/-- Transience test of src/tools.py line 55:
`"503" in error_str or "overload" in error_str.lower()`. -/
def isTransientTavily (e : String) : Bool :=
  strContains e "503" || strContains (strToLower e) "overload"

/-- `max_retries = 3` (src/tools.py line 32). -/
def maxRetries : Nat := 3

/-- The body of the retry loop of `fetch_policy_data` (src/tools.py lines
33-66), one recursive step per iteration of `for attempt in range(max_retries)`.
`call attempt` is the outcome of `tavily_client.search` on that attempt
(`Except.error e` = the call raised with `str(ex) = e`).  The result pairs the
list of `time.sleep` durations with the outcome of the whole call:
`Except.ok s` = the function returned the string `s`, `Except.error e` = the
function re-raised the exception `e`.  The fuel argument counts the loop
iterations still available; it starts at `maxRetries` and the `0` case is
unreachable because every third-attempt branch returns. -/
def fetchLoop (call : Nat → Except String TavilyResponse) :
    Nat → Nat → List Nat × Except String String
  | _, 0 => ([], Except.error "loop exhausted")
  | attempt, fuel + 1 =>
    match call attempt with
    | Except.ok resp => ([], Except.ok (tavilyResultText resp))
    | Except.error e =>
      if isTransientTavily e && decide (attempt < maxRetries - 1) then
        let rest := fetchLoop call (attempt + 1) fuel
        (2 ^ attempt :: rest.1, rest.2)
      else
        let errorMsg := "Error during search: " ++ e
        if attempt == maxRetries - 1 then ([], Except.ok errorMsg)
        else ([], Except.error e)

/-- `fetch_policy_data` (src/tools.py lines 18-66) as a function of the
outcomes of the underlying Tavily calls. -/
def fetch_policy_data (call : Nat → Except String TavilyResponse) :
    List Nat × Except String String :=
  fetchLoop call 0 maxRetries

/-! ## src/main.py lines 36-42 — the Gemini HTTP retry configuration -/

/-- The fields of `types.HttpRetryOptions` that the source sets. -/
structure HttpRetryOptions where
  attempts : Nat
  exp_base : Nat
  initial_delay : Nat
  http_status_codes : List Nat
deriving DecidableEq

/-- The retry configuration constructed in src/main.py lines 37-42. -/
def retry_config : HttpRetryOptions :=
  { attempts := 5, exp_base := 7, initial_delay := 1,
    http_status_codes := [429, 500, 503, 504] }

/-! ## src/main.py — events, parts and the per-stage output extraction -/

/-- One part of a generation response.  Every field models an attribute that
src/main.py lines 154-162 inspects; `none` models an absent/None attribute. -/
structure Part where
  text : Option String
  function_call : Option String
  thought_signature : Option String
deriving DecidableEq

/-- One event of a `runner.run_async` stream.  `content = some ps` models an
event whose `content` is present with parts list `ps`; `function_call` models
the attribute read by the debug print at src/main.py line 147. -/
structure Event where
  is_final_response : Bool
  content : Option (List Part)
  function_call : Option String
deriving DecidableEq

/-- `hasattr(part, 'text') and part.text` (src/main.py line 154): the text of
a part when that test is truthy. -/
def partText (p : Part) : Option String :=
  match p.text with
  | some s => if s = "" then none else some s
  | none => none

/-- The `text_parts` list collected from a parts list (src/main.py
lines 152-162). -/
def textParts (ps : List Part) : List String :=
  ps.filterMap partText

/-- `'\n'.join(text_parts) if text_parts else ""` (src/main.py line 163). -/
def joinTextParts (ps : List Part) : String :=
  let tp := textParts ps
  if tp.isEmpty then "" else String.intercalate "\n" tp

/-- `event.content and event.content.parts` truthiness (src/main.py
line 150). -/
def eventHasContent (e : Event) : Bool :=
  match e.content with
  | some ps => !ps.isEmpty
  | none => false

/-- The guard `event.is_final_response() and event.content and
event.content.parts` of src/main.py line 150. -/
def finalQualifies (e : Event) : Bool :=
  e.is_final_response && eventHasContent e

/-- One assignment step of the event loop: on a qualifying event the stage
text variable is overwritten with the joined text parts, otherwise kept. -/
def updateOutput (acc : String) (e : Event) : String :=
  if finalQualifies e then
    match e.content with
    | some ps => joinTextParts ps
    | none => acc
  else acc

/-- The value of the stage text variable (`analysis_text`, `critique_text`,
`lobbyist_text`, `summary_text`) after the `async for event in ...` loop of
src/main.py lines 145-163 (and its three copies), starting from `""`. -/
def stage_output (events : List Event) : String :=
  events.foldl updateOutput ""

/-- Modelled from the spec (§4.1): the executor output described as the text
of the final completed assistant message alone — the last qualifying event of
the stream, its text segments joined, `""` when there is none.  Comparator for
the extraction loop above. -/
def finalMessageText (events : List Event) : String :=
  match (events.filter finalQualifies).getLast? with
  | some e =>
    match e.content with
    | some ps => joinTextParts ps
    | none => ""
  | none => ""

/-! ## src/main.py — agents, tools and sessions -/

/-- The two search tools wired up in src/main.py lines 45-52. -/
inductive Tool
  | tavilySearch
  | googleSearch
deriving DecidableEq

/-- The claim-relevant fields of an `LlmAgent` construction (name and tool
list); the instruction bodies are free-text prompts not referenced by any
claim. -/
structure LlmAgent where
  name : String
  tools : List Tool
deriving DecidableEq

/-- `analyst_critic_tools = [tavily_search_tool]` (src/main.py line 51). -/
def analyst_critic_tools : List Tool := [Tool.tavilySearch]

/-- `lobbyist_summary_tools = [google_search_tool]` (src/main.py line 52). -/
def lobbyist_summary_tools : List Tool := [Tool.googleSearch]

/-- The Analyst agent (src/main.py lines 61-76). -/
def analyst_agent : LlmAgent := { name := "Analyst", tools := analyst_critic_tools }

/-- The Critic agent (src/main.py lines 78-92). -/
def critic_agent : LlmAgent := { name := "Critic", tools := analyst_critic_tools }

/-- The Lobbyist agent (src/main.py lines 94-111). -/
def lobbyist_agent : LlmAgent := { name := "Lobbyist", tools := lobbyist_summary_tools }

/-- The Synthesizer agent actually run by the pipeline (src/main.py
lines 113-130, named `summary_agent` there). -/
def summary_agent : LlmAgent := { name := "Synthesizer", tools := lobbyist_summary_tools }

/-- `get_synthesizer_agent` from src/agents/synthesizer.py (a module that
src/main.py does not import): it builds the Synthesizer with `tools=[]`. -/
def get_synthesizer_agent : LlmAgent := { name := "Synthesizer", tools := [] }

/-- The four pipeline stages. -/
inductive Stage
  | Analyst
  | Critic
  | Lobbyist
  | Synthesizer
deriving DecidableEq

/-- The agent each stage's `Runner` is constructed with (src/main.py
lines 141, 181, 221, 267). -/
def stageAgent : Stage → LlmAgent
  | Stage.Analyst => analyst_agent
  | Stage.Critic => critic_agent
  | Stage.Lobbyist => lobbyist_agent
  | Stage.Synthesizer => summary_agent

/-- `app_name = "agents"` (src/main.py line 134). -/
def app_name : String := "agents"

/-- The constant `user_id` passed to every session call (src/main.py
lines 140, 145, 180, 185, 220, 231, 266, 284). -/
def user_id : String := "user"

/-- The `session_id` literal used for each stage's `create_session` call
(src/main.py lines 140, 180, 220, 266). -/
def session_id : Stage → String
  | Stage.Analyst => "sess_analyst"
  | Stage.Critic => "sess_critic"
  | Stage.Lobbyist => "sess_lobbyist"
  | Stage.Synthesizer => "sess_summary"

/-- Modelled from the spec (§3 StageSession): the composite session key viewed
as a function of a run identity and the stage.  In src/main.py the three
components are the fixed values above, so the run identity does not occur in
the result. -/
def sessionKeyOfRun (_runId : String) (s : Stage) : String × String × String :=
  (app_name, user_id, session_id s)

/-! ## src/main.py — the pipeline controller `run_policy_analysis` -/

/-- One yielded 4-tuple `(analysis, critique, lobbyist, summary)`. -/
structure Snapshot where
  analysis : String
  critique : String
  lobbyist : String
  summary : String
deriving DecidableEq

/-- The environment of one invocation of `run_policy_analysis`: the UI inputs,
the process-wide defaults from src/config.py, and oracles for the outcome of
the setup block and of each stage's `run_async` event stream (`Except.error e`
= the block raised with `str(ex) = e`). -/
structure RunEnv where
  topic : String
  google_key : String
  tavily_key : String
  cfg_google_api_key : String
  cfg_tavily_api_key : String
  setup : Except String Unit
  analystRun : Except String (List Event)
  criticRun : Except String (List Event)
  lobbyistRun : Except String (List Event)
  summaryRun : Except String (List Event)

/-- What one invocation of `run_policy_analysis` produces: the yielded
snapshots in order, the stages whose execution block was entered (session
created and `run_async` issued), and the terminal log lines printed. -/
structure RunResult where
  snapshots : List Snapshot
  executed : List Stage
  logs : List String
deriving DecidableEq

/-- `google_key if google_key else config.GOOGLE_API_KEY` (src/main.py
lines 21-22): python string truthiness selects the non-empty override. -/
def resolveKey (override dflt : String) : String :=
  if override ≠ "" then override else dflt

/-- The authentication error string of src/main.py line 25. -/
def authErrorMsg : String :=
  "Error: Missing API Keys. Please provide both Google API Key and Tavily API Key."

/-- The debug print emitted for an event carrying a truthy `function_call`
attribute (src/main.py lines 147-148 and its three copies). -/
def toolCallLogs (label : String) (events : List Event) : List String :=
  events.filterMap (fun e =>
    match e.function_call with
    | some n => if n = "" then none else some ("   🛠️  [" ++ label ++ "] Calling Tool: " ++ n)
    | none => none)

/-- The truthiness of `not text.strip()` (src/main.py line 166 and copies):
stripping leaves nothing exactly when every character is whitespace. -/
def stripEmpty (s : String) : Bool :=
  s.data.all Char.isWhitespace

/-- The log lines printed by one successful stage block: tool-call debug
lines in event order, the completion line, and the empty-content warning when
the extracted text strips to nothing (src/main.py lines 165-167 and the three
copies). -/
def stageSuccessLogs (label noun : String) (events : List Event) : List String :=
  toolCallLogs label events ++
  ["✅ [" ++ label ++ "] Execution Complete"] ++
  (if stripEmpty (stage_output events) then
    ["⚠️  [" ++ label ++ "] Warning: No " ++ noun ++ " content generated"]
  else [])

/-- `run_policy_analysis` (src/main.py lines 19-315) as a pure function of its
environment.  Each `yield` of the generator appends one `Snapshot`; each
`return` ends the list; the `except` handler of every stage yields the error
tuple of that stage and returns. -/
def run_policy_analysis (env : RunEnv) : RunResult :=
  let active_google := resolveKey env.google_key env.cfg_google_api_key
  let active_tavily := resolveKey env.tavily_key env.cfg_tavily_api_key
  if active_google = "" ∨ active_tavily = "" then
    { snapshots := [⟨authErrorMsg, authErrorMsg, authErrorMsg, authErrorMsg⟩],
      executed := [],
      logs := ["❌ Authentication Error: " ++ authErrorMsg] }
  else
    let s0 : Snapshot :=
      ⟨"Starting analysis for: " ++ env.topic ++ "...\nCheck terminal for live logs.", "", "", ""⟩
    match env.setup with
    | Except.error e =>
      let err := "Setup Error: " ++ e
      { snapshots := [s0, ⟨err, err, err, err⟩],
        executed := [],
        logs := ["❌ Setup Error: " ++ err] }
    | Except.ok _ =>
      let s1 : Snapshot := ⟨">>> Analyst: Searching for data...\n", "", "", ""⟩
      match env.analystRun with
      | Except.error e =>
        let msg := "Analyst Failed: " ++ e
        { snapshots := [s0, s1, ⟨msg, "", "", ""⟩],
          executed := [Stage.Analyst],
          logs := ["❌ " ++ msg] }
      | Except.ok aEvents =>
        let analysis_text := stage_output aEvents
        let aLogs := stageSuccessLogs "Analyst" "analysis" aEvents
        let s2 : Snapshot := ⟨analysis_text, ">>> Analyst finished. Starting Critic...\n", "", ""⟩
        match env.criticRun with
        | Except.error e =>
          let msg := "Critic Failed: " ++ e
          { snapshots := [s0, s1, s2, ⟨analysis_text, msg, "", ""⟩],
            executed := [Stage.Analyst, Stage.Critic],
            logs := aLogs ++ ["❌ " ++ msg] }
        | Except.ok cEvents =>
          let critique_text := stage_output cEvents
          let cLogs := stageSuccessLogs "Critic" "critique" cEvents
          let s3 : Snapshot :=
            ⟨analysis_text, critique_text, ">>> Critic finished. Starting Lobbyist...\n", ""⟩
          match env.lobbyistRun with
          | Except.error e =>
            let msg := "Lobbyist Failed: " ++ e
            { snapshots := [s0, s1, s2, s3, ⟨analysis_text, critique_text, msg, ""⟩],
              executed := [Stage.Analyst, Stage.Critic, Stage.Lobbyist],
              logs := aLogs ++ cLogs ++ ["❌ " ++ msg] }
          | Except.ok lEvents =>
            let lobbyist_text := stage_output lEvents
            let lLogs := stageSuccessLogs "Lobbyist" "lobbyist" lEvents
            let s4 : Snapshot :=
              ⟨analysis_text, critique_text, lobbyist_text,
               ">>> Lobbyist finished. Synthesizing Final Report...\n"⟩
            match env.summaryRun with
            | Except.error e =>
              let msg := "Summary Failed: " ++ e
              { snapshots := [s0, s1, s2, s3, s4,
                  ⟨analysis_text, critique_text, lobbyist_text, msg⟩],
                executed := [Stage.Analyst, Stage.Critic, Stage.Lobbyist, Stage.Synthesizer],
                logs := aLogs ++ cLogs ++ lLogs ++ ["❌ " ++ msg] }
            | Except.ok sEvents =>
              let summary_text := stage_output sEvents
              let sLogs := stageSuccessLogs "Synthesizer" "summary" sEvents
              { snapshots := [s0, s1, s2, s3, s4,
                  ⟨analysis_text, critique_text, lobbyist_text, summary_text⟩],
                executed := [Stage.Analyst, Stage.Critic, Stage.Lobbyist, Stage.Synthesizer],
                logs := aLogs ++ cLogs ++ lLogs ++ sLogs ++
                  ["\n✅ [System] Workflow Completed Successfully."] }

/-! ## src/main.py lines 317-364 — `generate_markdown_report`

The timestamp is passed explicitly (the source computes it from the clock);
the function below is the f-string template of lines 324-355 verbatim.  The
temporary-file write of lines 357-364 is I/O outside the shallow embedding;
the claims concern the document content. -/

/-- The markdown document built by `generate_markdown_report` (src/main.py
lines 324-355). -/
def generate_markdown_report (topic timestamp analysis critique lobbyist summary : String) :
    String :=
  "# Policy Analysis Report\n\n**Topic**: " ++ topic ++
  "\n**Generated**: " ++ timestamp ++
  "\n\n---\n\n## 📊 Analysis\n\n" ++ analysis ++
  "\n\n---\n\n## ⚖️ Critique\n\n" ++ critique ++
  "\n\n---\n\n## 📢 Future Directives (Lobbyist)\n\n" ++ lobbyist ++
  "\n\n---\n\n## 📝 Final Summary\n\n" ++ summary ++
  "\n\n---\n*Report generated by Popu Agent*\n"

/-- Splitting a character list into its lines at `'\n'`; a trailing newline
yields a final empty line, and `splitLines [] = [[]]`. -/
def splitLines : List Char → List (List Char)
  | [] => [[]]
  | c :: cs =>
    if c = '\n' then [] :: splitLines cs
    else
      match splitLines cs with
      | [] => [[c]]
      | l :: ls => (c :: l) :: ls

/-- The first line of the document: characters up to the first newline. -/
def firstLine (s : String) : List Char :=
  s.data.takeWhile (fun c => c ≠ '\n')

/-- `needle` occurs as a contiguous substring of `hay`. -/
def hasSub (needle hay : List Char) : Bool :=
  hay.tails.any (fun t => needle.isPrefixOf t)

/-- The number of level-2 markdown heading lines of a line list. -/
def countH2 (lines : List (List Char)) : Nat :=
  (lines.filter (fun ln => "## ".data.isPrefixOf ln)).length

/-- The fixed top-level heading line of the report. -/
def hdrL : List Char := "# Policy Analysis Report".data

/-- The bold topic tag of the report. -/
def topicTagL : List Char := "**Topic**: ".data

/-- The bold timestamp tag of the report. -/
def genTagL : List Char := "**Generated**: ".data

/-- The horizontal-rule line of the report. -/
def dashesL : List Char := "---".data

/-- The Analysis section heading line. -/
def secAnalysisL : List Char := "## 📊 Analysis".data

/-- The Critique section heading line. -/
def secCritiqueL : List Char := "## ⚖️ Critique".data

/-- The Lobbyist section heading line. -/
def secLobbyistL : List Char := "## 📢 Future Directives (Lobbyist)".data

/-- The Summary section heading line. -/
def secSummaryL : List Char := "## 📝 Final Summary".data

/-- The footer line of the report. -/
def footerL : List Char := "*Report generated by Popu Agent*".data

/-- Modelled from the spec (§6 report file format), corrected to the template
of src/main.py: the full line decomposition the rendered report is expected to
have — fixed title line, blank line, bold topic line, timestamp line, then the
four sections in order, each a rule, a level-2 heading and the stage's own
lines verbatim. -/
def reportLines (topic timestamp analysis critique lobbyist summary : String) :
    List (List Char) :=
  [hdrL, [], topicTagL ++ topic.data, genTagL ++ timestamp.data, [],
   dashesL, [], secAnalysisL, []] ++
  splitLines analysis.data ++
  [[], dashesL, [], secCritiqueL, []] ++
  splitLines critique.data ++
  [[], dashesL, [], secLobbyistL, []] ++
  splitLines lobbyist.data ++
  [[], dashesL, [], secSummaryL, []] ++
  splitLines summary.data ++
  [[], dashesL, footerL, []]

/-! ## Decidability of `Except` equality (for concrete evaluations) -/

instance exceptDecEq {α β : Type} [DecidableEq α] [DecidableEq β] :
    DecidableEq (Except α β) := fun x y =>
  match x, y with
  | Except.ok a, Except.ok b =>
    if h : a = b then isTrue (by rw [h]) else isFalse (fun hh => h (Except.ok.inj hh))
  | Except.error a, Except.error b =>
    if h : a = b then isTrue (by rw [h]) else isFalse (fun hh => h (Except.error.inj hh))
  | Except.ok _, Except.error _ => isFalse (fun hh => Except.noConfusion hh)
  | Except.error _, Except.ok _ => isFalse (fun hh => Except.noConfusion hh)

/-! ## Concrete fixtures used by witnesses and counterexamples -/

/-- A final-response event carrying a single text part. -/
def evText (s : String) : Event :=
  { is_final_response := true,
    content := some [{ text := some s, function_call := none, thought_signature := none }],
    function_call := none }

/-- A Tavily response without a `results` key. -/
def respNoResults : TavilyResponse := { results := none }

/-- A Tavily response with a single result. -/
def respOne : TavilyResponse :=
  { results := some [{ title := "T", url := "U", content := some "C", raw_content := none }] }

/-- A search oracle that always raises a rate-limit-style error. -/
def call429 : Nat → Except String TavilyResponse :=
  fun _ => Except.error "HTTP 429 Too Many Requests"

/-- A search oracle that always raises an unavailability-style error. -/
def callUnavailable : Nat → Except String TavilyResponse :=
  fun _ => Except.error "service unavailable"

/-- A search oracle that always raises a 503-style error. -/
def call503 : Nat → Except String TavilyResponse :=
  fun _ => Except.error "503 Service Unavailable"

/-- A search oracle that always raises a generic error. -/
def callBoom : Nat → Except String TavilyResponse :=
  fun _ => Except.error "boom"

/-- A search oracle that always succeeds with no results. -/
def callNoResults : Nat → Except String TavilyResponse :=
  fun _ => Except.ok respNoResults

/-- A search oracle that raises a transient error once and then succeeds. -/
def callRecover : Nat → Except String TavilyResponse :=
  fun n => if n = 0 then Except.error "503 overloaded" else Except.ok respOne

/-- An environment whose Analyst stage raises. -/
def envAnalystFails : RunEnv :=
  { topic := "UBI", google_key := "g", tavily_key := "t",
    cfg_google_api_key := "", cfg_tavily_api_key := "",
    setup := Except.ok (), analystRun := Except.error "boom",
    criticRun := Except.ok [], lobbyistRun := Except.ok [], summaryRun := Except.ok [] }

/-- An environment whose Critic stage raises after a successful Analyst. -/
def envCriticFails : RunEnv :=
  { topic := "UBI", google_key := "g", tavily_key := "t",
    cfg_google_api_key := "", cfg_tavily_api_key := "",
    setup := Except.ok (), analystRun := Except.ok [evText "a"],
    criticRun := Except.error "boom2", lobbyistRun := Except.ok [], summaryRun := Except.ok [] }

/-- An environment whose Analyst stage completes with no text at all. -/
def envEmptyAnalyst : RunEnv :=
  { topic := "UBI", google_key := "g", tavily_key := "t",
    cfg_google_api_key := "", cfg_tavily_api_key := "",
    setup := Except.ok (), analystRun := Except.ok [],
    criticRun := Except.ok [evText "c"], lobbyistRun := Except.ok [evText "l"],
    summaryRun := Except.ok [evText "s"] }

/-- An environment with no credentials at all. -/
def envNoKeys : RunEnv :=
  { topic := "UBI", google_key := "", tavily_key := "",
    cfg_google_api_key := "", cfg_tavily_api_key := "",
    setup := Except.ok (), analystRun := Except.ok [],
    criticRun := Except.ok [], lobbyistRun := Except.ok [], summaryRun := Except.ok [] }

/-- An environment in which all four stages succeed with fixed texts. -/
def envAllOk : RunEnv :=
  { topic := "UBI", google_key := "g", tavily_key := "t",
    cfg_google_api_key := "", cfg_tavily_api_key := "",
    setup := Except.ok (), analystRun := Except.ok [evText "a"],
    criticRun := Except.ok [evText "c"], lobbyistRun := Except.ok [evText "l"],
    summaryRun := Except.ok [evText "s"] }

/-- A concrete part carrying text. -/
def partTextA : Part := { text := some "alpha", function_call := none, thought_signature := none }

/-- A second concrete part carrying text. -/
def partTextB : Part := { text := some "beta", function_call := none, thought_signature := none }

/-- A concrete non-text part (a tool-call directive). -/
def partCall : Part :=
  { text := none, function_call := some "fetch_policy_data", thought_signature := none }

/-! ## Helper lemmas -/

/-- Splitting the empty character list yields one empty line. -/
theorem splitLines_nil : splitLines [] = [[]] := rfl

/-- `splitLines` never returns the empty list. -/
theorem splitLines_ne_nil (cs : List Char) : splitLines cs ≠ [] := by
  induction cs with
  | nil => simp [splitLines]
  | cons c cs ih =>
    simp only [splitLines]
    split
    · simp
    · match h : splitLines cs with
      | [] => exact absurd h ih
      | l :: ls => simp [h]

/-- A leading newline contributes an empty first line. -/
theorem splitLines_cons_newline (ys : List Char) :
    splitLines ('\n' :: ys) = [] :: splitLines ys := by
  simp [splitLines]

/-- Unfolding `splitLines` on a non-newline head. -/
theorem splitLines_cons_of_ne (c : Char) (cs : List Char) (hc : c ≠ '\n') :
    splitLines (c :: cs) =
      match splitLines cs with
      | [] => [[c]]
      | l :: ls => (c :: l) :: ls := by
  simp [splitLines, if_neg hc]

/-- A newline between two pieces splits the line list in two. -/
theorem splitLines_append_newline (xs ys : List Char) :
    splitLines (xs ++ '\n' :: ys) = splitLines xs ++ splitLines ys := by
  induction xs with
  | nil => simp [splitLines]
  | cons c xs ih =>
    by_cases hc : c = '\n'
    · subst hc
      simp [splitLines, ih]
    · cases hsx : splitLines xs with
      | nil => exact absurd hsx (splitLines_ne_nil xs)
      | cons l ls =>
        rw [List.cons_append, splitLines_cons_of_ne c _ hc, splitLines_cons_of_ne c xs hc,
          ih, hsx]
        rfl

/-- A newline-free piece is a single line. -/
theorem splitLines_eq_single (xs : List Char) (h : '\n' ∉ xs) :
    splitLines xs = [xs] := by
  induction xs with
  | nil => rfl
  | cons c xs ih =>
    have hc : c ≠ '\n' := fun hh => h (hh ▸ List.mem_cons_self c xs)
    have hxs : '\n' ∉ xs := fun hh => h (List.mem_cons_of_mem c hh)
    rw [splitLines_cons_of_ne c xs hc, ih hxs]

/-- Prepending a newline-free piece extends the first line of the remainder. -/
theorem splitLines_append_of_no_newline (xs ys : List Char) (h : '\n' ∉ xs) :
    splitLines (xs ++ ys) = (xs ++ (splitLines ys).headI) :: (splitLines ys).tail := by
  induction xs with
  | nil =>
    cases hsy : splitLines ys with
    | nil => exact absurd hsy (splitLines_ne_nil ys)
    | cons l ls => simp [hsy]
  | cons c xs ih =>
    have hc : c ≠ '\n' := fun hh => h (hh ▸ List.mem_cons_self c xs)
    have hxs : '\n' ∉ xs := fun hh => h (List.mem_cons_of_mem c hh)
    rw [List.cons_append, splitLines_cons_of_ne c _ hc, ih hxs]
    simp

/-- The event fold of the stage loop keeps only the last qualifying event:
folding `updateOutput` from any accumulator returns the joined text parts of
the last final-response event with nonempty parts, or the accumulator if there
is none. -/
theorem foldl_updateOutput (evs : List Event) (acc : String) :
    evs.foldl updateOutput acc =
      match (evs.filter finalQualifies).getLast? with
      | some e =>
        match e.content with
        | some ps => joinTextParts ps
        | none => ""
      | none => acc := by
  induction evs generalizing acc with
  | nil => simp
  | cons e tl ih =>
    rw [List.foldl_cons, ih]
    by_cases hq : finalQualifies e = true
    · obtain ⟨ps, hps⟩ : ∃ ps, e.content = some ps := by
        rcases hcc : e.content with _ | ps
        · exfalso
          simp [finalQualifies, eventHasContent, hcc] at hq
        · exact ⟨ps, rfl⟩
      rw [List.filter_cons_of_pos hq]
      cases hf : tl.filter finalQualifies with
      | nil => simp [updateOutput, hq, hps]
      | cons x xs =>
        rw [List.getLast?_cons_cons]
        cases hy : (x :: xs).getLast? with
        | none => simp at hy
        | some y => rfl
    · have hq' : finalQualifies e = false := by simpa using hq
      rw [List.filter_cons_of_neg (by simp [hq'])]
      rw [show updateOutput acc e = acc from by simp [updateOutput, hq']]

/-! ## Claims -/

/-- C1: for every run in which a stage (Analyst, Critic or Lobbyist) fails
with an error, the final snapshot preserves every previously succeeded
stage's output verbatim in its slot, carries an error string naming the
failed stage in that stage's slot with all downstream slots empty, and no
downstream stage's generation call is ever made. -/
theorem c1_fail_fast (env : RunEnv)
    (hg : resolveKey env.google_key env.cfg_google_api_key ≠ "")
    (ht : resolveKey env.tavily_key env.cfg_tavily_api_key ≠ "")
    (hs : env.setup = Except.ok ()) :
    (∀ e, env.analystRun = Except.error e →
      (run_policy_analysis env).snapshots.getLast? =
        some ⟨"Analyst Failed: " ++ e, "", "", ""⟩ ∧
      (run_policy_analysis env).executed = [Stage.Analyst] ∧
      Stage.Critic ∉ (run_policy_analysis env).executed ∧
      Stage.Lobbyist ∉ (run_policy_analysis env).executed ∧
      Stage.Synthesizer ∉ (run_policy_analysis env).executed) ∧
    (∀ aEv e, env.analystRun = Except.ok aEv → env.criticRun = Except.error e →
      (run_policy_analysis env).snapshots.getLast? =
        some ⟨stage_output aEv, "Critic Failed: " ++ e, "", ""⟩ ∧
      (run_policy_analysis env).executed = [Stage.Analyst, Stage.Critic] ∧
      Stage.Lobbyist ∉ (run_policy_analysis env).executed ∧
      Stage.Synthesizer ∉ (run_policy_analysis env).executed) ∧
    (∀ aEv cEv e, env.analystRun = Except.ok aEv → env.criticRun = Except.ok cEv →
      env.lobbyistRun = Except.error e →
      (run_policy_analysis env).snapshots.getLast? =
        some ⟨stage_output aEv, stage_output cEv, "Lobbyist Failed: " ++ e, ""⟩ ∧
      (run_policy_analysis env).executed = [Stage.Analyst, Stage.Critic, Stage.Lobbyist] ∧
      Stage.Synthesizer ∉ (run_policy_analysis env).executed) := by
  have hcond : ¬(resolveKey env.google_key env.cfg_google_api_key = "" ∨
      resolveKey env.tavily_key env.cfg_tavily_api_key = "") := by
    rintro (h | h)
    · exact hg h
    · exact ht h
  refine ⟨fun e hA => ?_, fun aEv e hA hC => ?_, fun aEv cEv e hA hC hL => ?_⟩
  · simp [run_policy_analysis, hcond, hs, hA]
  · simp [run_policy_analysis, hcond, hs, hA, hC]
  · simp [run_policy_analysis, hcond, hs, hA, hC, hL]

/-- Witness for C1: in the concrete run whose Critic raises "boom2" after a
successful Analyst, the final snapshot preserves the Analyst text, names the
Critic failure and leaves downstream slots empty and unexecuted. -/
theorem c1_fail_fast_wit :
    (run_policy_analysis envCriticFails).snapshots.getLast? =
      some ⟨stage_output [evText "a"], "Critic Failed: boom2", "", ""⟩ ∧
    (run_policy_analysis envCriticFails).executed = [Stage.Analyst, Stage.Critic] ∧
    Stage.Lobbyist ∉ (run_policy_analysis envCriticFails).executed ∧
    Stage.Synthesizer ∉ (run_policy_analysis envCriticFails).executed :=
  (c1_fail_fast envCriticFails (by decide) (by decide) rfl).2.1 [evText "a"] "boom2" rfl rfl

/-- Counterexample to C2: a run whose Analyst completes with no text at all is
not halted — all three downstream stages still execute, the final snapshot is
reached with an empty analysis slot, and the only trace of the empty output is
a warning log line. -/
theorem c2_empty_not_halting_cex :
    (run_policy_analysis envEmptyAnalyst).executed =
      [Stage.Analyst, Stage.Critic, Stage.Lobbyist, Stage.Synthesizer] ∧
    (run_policy_analysis envEmptyAnalyst).snapshots.getLast? = some ⟨"", "c", "l", "s"⟩ ∧
    (run_policy_analysis envEmptyAnalyst).logs =
      ["✅ [Analyst] Execution Complete",
       "⚠️  [Analyst] Warning: No analysis content generated",
       "✅ [Critic] Execution Complete",
       "✅ [Lobbyist] Execution Complete",
       "✅ [Synthesizer] Execution Complete",
       "\n✅ [System] Workflow Completed Successfully."] := by
  decide

/-- C2 (amended): when the Analyst produces empty or whitespace-only output,
the controller does not halt — it only prints a warning log line and the run
continues exactly as on success: every downstream stage executes and the final
snapshot carries all four extracted texts. -/
theorem c2_empty_continues (env : RunEnv) (aEv cEv lEv sEv : List Event)
    (hg : resolveKey env.google_key env.cfg_google_api_key ≠ "")
    (ht : resolveKey env.tavily_key env.cfg_tavily_api_key ≠ "")
    (hsetup : env.setup = Except.ok ())
    (ha : env.analystRun = Except.ok aEv)
    (hc : env.criticRun = Except.ok cEv)
    (hl : env.lobbyistRun = Except.ok lEv)
    (hsm : env.summaryRun = Except.ok sEv)
    (hempty : stripEmpty (stage_output aEv) = true) :
    (run_policy_analysis env).executed =
      [Stage.Analyst, Stage.Critic, Stage.Lobbyist, Stage.Synthesizer] ∧
    "⚠️  [Analyst] Warning: No analysis content generated" ∈ (run_policy_analysis env).logs ∧
    (run_policy_analysis env).snapshots.getLast? =
      some ⟨stage_output aEv, stage_output cEv, stage_output lEv, stage_output sEv⟩ := by
  have hcond : ¬(resolveKey env.google_key env.cfg_google_api_key = "" ∨
      resolveKey env.tavily_key env.cfg_tavily_api_key = "") := by
    rintro (h | h)
    · exact hg h
    · exact ht h
  refine ⟨?_, ?_, ?_⟩ <;>
    simp [run_policy_analysis, hcond, hsetup, ha, hc, hl, hsm, stageSuccessLogs, hempty]

/-- Witness for the amended C2 at the concrete empty-Analyst run. -/
theorem c2_empty_continues_wit :
    (run_policy_analysis envEmptyAnalyst).executed =
      [Stage.Analyst, Stage.Critic, Stage.Lobbyist, Stage.Synthesizer] ∧
    "⚠️  [Analyst] Warning: No analysis content generated" ∈
      (run_policy_analysis envEmptyAnalyst).logs ∧
    (run_policy_analysis envEmptyAnalyst).snapshots.getLast? =
      some ⟨stage_output [], stage_output [evText "c"], stage_output [evText "l"],
        stage_output [evText "s"]⟩ :=
  c2_empty_continues envEmptyAnalyst [] [evText "c"] [evText "l"] [evText "s"]
    (by decide) (by decide) rfl rfl rfl rfl rfl (by decide)

/-- Counterexample to C3: an error carrying an HTTP 429 signature is not
retried at all by the Tavily tool — it is re-raised immediately with no
backoff sleep (likewise a textual "unavailable" error); three consecutive
transient 503 errors sleep 1s then 2s (never 4s) and end with the error
returned as a string, not surfaced as a failure; and the Gemini HTTP retry
configuration uses 5 attempts with exponential base 7, not 3 attempts with
doubling. -/
theorem c3_retry_cex :
    fetch_policy_data call429 = ([], Except.error "HTTP 429 Too Many Requests") ∧
    fetch_policy_data callUnavailable = ([], Except.error "service unavailable") ∧
    fetch_policy_data call503 =
      ([1, 2], Except.ok "Error during search: 503 Service Unavailable") ∧
    retry_config.attempts = 5 ∧ retry_config.exp_base = 7 := by
  decide

/-- C3 (amended): the Tavily search tool retries only errors whose text
contains "503" or, case-insensitively, "overload", up to 3 total attempts
with backoff sleeps of 2^attempt seconds (1s then 2s); any other error is
re-raised immediately with no retry; an error on the final attempt is
returned as an "Error during search: " string rather than raised; and the
Gemini HTTP layer is configured separately with 5 attempts, exponential base
7, initial delay 1 and retryable statuses 429, 500, 503, 504. -/
theorem c3_retry_behavior :
    (∀ call e, call 0 = Except.error e → isTransientTavily e = false →
      fetch_policy_data call = ([], Except.error e)) ∧
    (∀ call resp, call 0 = Except.ok resp →
      fetch_policy_data call = ([], Except.ok (tavilyResultText resp))) ∧
    (∀ call e₀ resp, call 0 = Except.error e₀ → isTransientTavily e₀ = true →
      call 1 = Except.ok resp →
      fetch_policy_data call = ([1], Except.ok (tavilyResultText resp))) ∧
    (∀ call e₀ e₁, call 0 = Except.error e₀ → isTransientTavily e₀ = true →
      call 1 = Except.error e₁ → isTransientTavily e₁ = false →
      fetch_policy_data call = ([1], Except.error e₁)) ∧
    (∀ call e₀ e₁ e₂, call 0 = Except.error e₀ → isTransientTavily e₀ = true →
      call 1 = Except.error e₁ → isTransientTavily e₁ = true →
      call 2 = Except.error e₂ →
      fetch_policy_data call = ([1, 2], Except.ok ("Error during search: " ++ e₂))) ∧
    retry_config = HttpRetryOptions.mk 5 7 1 [429, 500, 503, 504] := by
  refine ⟨?_, ?_, ?_, ?_, ?_, rfl⟩
  · intro call e h0 htr
    simp [fetch_policy_data, fetchLoop, h0, htr, maxRetries]
  · intro call resp h0
    simp [fetch_policy_data, fetchLoop, h0]
  · intro call e₀ resp h0 htr h1
    simp [fetch_policy_data, fetchLoop, h0, htr, h1, maxRetries]
  · intro call e₀ e₁ h0 htr0 h1 htr1
    simp [fetch_policy_data, fetchLoop, h0, htr0, h1, htr1, maxRetries]
  · intro call e₀ e₁ e₂ h0 htr0 h1 htr1 h2
    simp [fetch_policy_data, fetchLoop, h0, htr0, h1, htr1, h2, maxRetries]

/-- Witness for the amended C3: a transient 503 error on the first attempt
followed by a successful second attempt yields one 1-second backoff sleep and
the formatted result. -/
theorem c3_retry_behavior_wit :
    fetch_policy_data callRecover = ([1], Except.ok (tavilyResultText respOne)) :=
  c3_retry_behavior.2.2.1 callRecover "503 overloaded" respOne rfl (by decide) rfl

/-- Counterexample to C4: the session key of a stage is identical for two
runs with distinct run identities — the key involves no run identifier, so
distinctness of runs does not make the keys distinct. -/
theorem c4_session_key_cex :
    sessionKeyOfRun "run-A" Stage.Analyst = sessionKeyOfRun "run-B" Stage.Analyst ∧
    "run-A" ≠ "run-B" := by
  decide

/-- C4 (amended): every stage session is identified by the fixed composite
key (app name "agents", user id "user", per-stage literal session id);
distinct stages never share a session id, but any two runs use the identical
key for the same stage — cross-run isolation is not provided by the key. -/
theorem c4_session_keys :
    (∀ s t : Stage, s ≠ t → session_id s ≠ session_id t) ∧
    (∀ r₁ r₂ : String, ∀ s : Stage, sessionKeyOfRun r₁ s = sessionKeyOfRun r₂ s) ∧
    (∀ r : String, ∀ s : Stage, sessionKeyOfRun r s = (app_name, user_id, session_id s)) := by
  refine ⟨?_, fun r₁ r₂ s => rfl, fun r s => rfl⟩
  intro s t hst
  cases s <;> cases t <;> revert hst <;> decide

/-- Witness for the amended C4: the Analyst and Critic sessions have distinct
session ids. -/
theorem c4_session_keys_wit :
    session_id Stage.Analyst ≠ session_id Stage.Critic :=
  c4_session_keys.1 Stage.Analyst Stage.Critic (by decide)

/-- Counterexample to C5: the Synthesizer agent the pipeline actually runs
(`summary_agent` in src/main.py) is constructed with a nonempty tool list —
the Google Search tool. -/
theorem c5_synthesizer_tools_cex :
    (stageAgent Stage.Synthesizer).tools ≠ [] ∧
    (stageAgent Stage.Synthesizer).tools = [Tool.googleSearch] := by
  decide

/-- C5 (amended): the Synthesizer stage of the executed pipeline is invoked
with the `lobbyist_summary_tools` list, which contains exactly the Google
Search tool; only the unused `get_synthesizer_agent` constructor of
src/agents/synthesizer.py builds a Synthesizer with an empty tool set. -/
theorem c5_synthesizer_tools :
    (stageAgent Stage.Synthesizer).tools = lobbyist_summary_tools ∧
    lobbyist_summary_tools = [Tool.googleSearch] ∧
    get_synthesizer_agent.tools = [] := by
  decide

/-- Counterexample to C6: a non-transient error ("boom") on the first search
attempt propagates out of `fetch_policy_data` as a raised exception — the
call does not return an "Error during search: " string. -/
theorem c6_search_raises_cex :
    (fetch_policy_data callBoom).2 = Except.error "boom" ∧
    ¬(fetch_policy_data callBoom).2 = Except.ok "Error during search: boom" := by
  decide

/-- C6 (amended): on a successful search the tool returns the formatted
result string without raising — the literal "No results found." when the
context is empty, otherwise the double-newline join of the per-result
blocks; an error is returned as data (prefixed "Error during search: ") only
when it occurs on the final retry attempt; a non-transient error on an
earlier attempt propagates to the caller as a raised exception. -/
theorem c6_search_result_shape :
    (∀ call resp, call 0 = Except.ok resp →
      fetch_policy_data call = ([], Except.ok (tavilyResultText resp))) ∧
    (∀ resp, tavilyContext resp = [] → tavilyResultText resp = "No results found.") ∧
    (∀ resp rs, resp.results = some rs → rs ≠ [] →
      tavilyResultText resp = String.intercalate "\n\n" (rs.map formatResult)) ∧
    (∀ call e₀ e₁ e₂, call 0 = Except.error e₀ → isTransientTavily e₀ = true →
      call 1 = Except.error e₁ → isTransientTavily e₁ = true → call 2 = Except.error e₂ →
      (fetch_policy_data call).2 = Except.ok ("Error during search: " ++ e₂)) ∧
    (∀ call e, call 0 = Except.error e → isTransientTavily e = false →
      (fetch_policy_data call).2 = Except.error e) := by
  refine ⟨?_, ?_, ?_, ?_, ?_⟩
  · intro call resp h0
    simp [fetch_policy_data, fetchLoop, h0]
  · intro resp h
    simp [tavilyResultText, h]
  · intro resp rs hrs hne
    simp [tavilyResultText, tavilyContext, hrs, hne]
  · intro call e₀ e₁ e₂ h0 htr0 h1 htr1 h2
    simp [fetch_policy_data, fetchLoop, h0, htr0, h1, htr1, h2, maxRetries]
  · intro call e h0 htr
    simp [fetch_policy_data, fetchLoop, h0, htr, maxRetries]

/-- Witness for the amended C6: a successful search with no results returns
the literal "No results found." without raising. -/
theorem c6_search_result_shape_wit :
    fetch_policy_data callNoResults = ([], Except.ok (tavilyResultText respNoResults)) ∧
    tavilyResultText respNoResults = "No results found." :=
  ⟨c6_search_result_shape.1 callNoResults respNoResults rfl,
   c6_search_result_shape.2.1 respNoResults rfl⟩

/-- C7: each credential resolves to the per-run override when that override
is non-empty and to the process-wide default otherwise; when either
credential still resolves to empty, the run emits exactly one snapshot — all
four slots carrying the same authentication error string — and terminates
without executing any agent stage. -/
theorem c7_auth_check (env : RunEnv)
    (h : resolveKey env.google_key env.cfg_google_api_key = "" ∨
         resolveKey env.tavily_key env.cfg_tavily_api_key = "") :
    (∀ ov d : String, ov ≠ "" → resolveKey ov d = ov) ∧
    (∀ d : String, resolveKey "" d = d) ∧
    (run_policy_analysis env).snapshots =
      [⟨authErrorMsg, authErrorMsg, authErrorMsg, authErrorMsg⟩] ∧
    (run_policy_analysis env).executed = [] := by
  refine ⟨fun ov d hov => by simp [resolveKey, hov], fun d => by simp [resolveKey], ?_, ?_⟩ <;>
    rcases h with h | h <;> simp [run_policy_analysis, h]

/-- Witness for C7 at the concrete credential-free run. -/
theorem c7_auth_check_wit :
    resolveKey "k" "d" = "k" ∧
    resolveKey "" "d" = "d" ∧
    (run_policy_analysis envNoKeys).snapshots =
      [⟨authErrorMsg, authErrorMsg, authErrorMsg, authErrorMsg⟩] ∧
    (run_policy_analysis envNoKeys).executed = [] := by
  obtain ⟨h1, h2, h3, h4⟩ := c7_auth_check envNoKeys (Or.inl (by decide))
  exact ⟨h1 "k" "d" (by decide), h2 "d", h3, h4⟩

/-- C8: the output of every stage execution is exactly the text of the last
final-response event with nonempty content — intermediate events never
contribute — obtained by newline-joining that event's nonempty text parts;
parts without text (tool-call directives, thought signatures) are discarded
without affecting the result. -/
theorem c8_final_message_extraction :
    (∀ events : List Event, stage_output events = finalMessageText events) ∧
    (∀ (ps₁ ps₂ : List Part) (p : Part), partText p = none →
      textParts (ps₁ ++ p :: ps₂) = textParts (ps₁ ++ ps₂)) := by
  constructor
  · intro events
    rw [stage_output, foldl_updateOutput]
    rfl
  · intro ps₁ ps₂ p hp
    simp [textParts, List.filterMap_append, List.filterMap_cons, hp]

/-- Witness for C8: the fold of a concrete event stream agrees with the
final-message extraction, and inserting a concrete tool-call part between two
text parts leaves the collected text parts unchanged. -/
theorem c8_final_message_extraction_wit :
    stage_output [evText "alpha"] = finalMessageText [evText "alpha"] ∧
    textParts ([partTextA] ++ partCall :: [partTextB]) = textParts ([partTextA] ++ [partTextB]) :=
  ⟨c8_final_message_extraction.1 [evText "alpha"],
   c8_final_message_extraction.2 [partTextA] [partTextB] partCall rfl⟩

/-- Counterexample to C9: at a concrete input the top-level heading line of
the rendered report is the fixed text "# Policy Analysis Report", which does
not contain the topic, and a stage text containing a level-2 heading of its
own makes the document carry five level-2 heading lines, not exactly four. -/
theorem c9_report_layout_cex :
    firstLine (generate_markdown_report "UBI" "2025-01-01 00:00:00" "## Extra\nbody" "c" "l" "s") =
      "# Policy Analysis Report".data ∧
    hasSub "UBI".data
      (firstLine (generate_markdown_report "UBI" "2025-01-01 00:00:00" "## Extra\nbody" "c" "l" "s")) =
      false ∧
    countH2 (splitLines
      (generate_markdown_report "UBI" "2025-01-01 00:00:00" "## Extra\nbody" "c" "l" "s").data) = 5 := by
  decide

set_option maxHeartbeats 1000000 in
set_option maxRecDepth 4000 in
/-- C9 (amended): for single-line topic and timestamp, the rendered report is
exactly the fixed title line "# Policy Analysis Report", a blank line, a bold
topic line, a generation timestamp line, and four sections in the fixed order
Analysis, Critique, Future Directives (Lobbyist), Final Summary — each a
horizontal rule, a level-2 heading and the corresponding stage raw text
verbatim — followed by the footer; the topic appears below the heading, not
in it, and the document has exactly four level-2 headings only when the stage
texts themselves contain none. -/
theorem c9_report_lines (topic ts a c l s : String)
    (ht : '\n' ∉ topic.data) (hts : '\n' ∉ ts.data) :
    splitLines (generate_markdown_report topic ts a c l s).data =
      reportLines topic ts a c l s := by
  have hTop : ∀ ys, splitLines (topicTagL ++ ys)
      = (topicTagL ++ (splitLines ys).headI) :: (splitLines ys).tail :=
    fun ys => splitLines_append_of_no_newline _ ys (by decide)
  have hGen : ∀ ys, splitLines (genTagL ++ ys)
      = (genTagL ++ (splitLines ys).headI) :: (splitLines ys).tail :=
    fun ys => splitLines_append_of_no_newline _ ys (by decide)
  have hH : splitLines hdrL = [hdrL] := by decide
  have hD : splitLines dashesL = [dashesL] := by decide
  have hA : splitLines secAnalysisL = [secAnalysisL] := by decide
  have hC : splitLines secCritiqueL = [secCritiqueL] := by decide
  have hL : splitLines secLobbyistL = [secLobbyistL] := by decide
  have hS : splitLines secSummaryL = [secSummaryL] := by decide
  have hF : splitLines footerL = [footerL] := by decide
  have hta : splitLines topic.data = [topic.data] := splitLines_eq_single _ ht
  have htsa : splitLines ts.data = [ts.data] := splitLines_eq_single _ hts
  have hdata : (generate_markdown_report topic ts a c l s).data =
      (hdrL ++ '\n' :: '\n' :: (topicTagL ++ (topic.data ++ '\n' :: (genTagL ++ (ts.data ++ '\n' :: '\n' :: (dashesL ++ '\n' :: '\n' :: (secAnalysisL ++ '\n' :: '\n' :: (a.data ++ '\n' :: '\n' :: (dashesL ++ '\n' :: '\n' :: (secCritiqueL ++ '\n' :: '\n' :: (c.data ++ '\n' :: '\n' :: (dashesL ++ '\n' :: '\n' :: (secLobbyistL ++ '\n' :: '\n' :: (l.data ++ '\n' :: '\n' :: (dashesL ++ '\n' :: '\n' :: (secSummaryL ++ '\n' :: '\n' :: (s.data ++ '\n' :: '\n' :: (dashesL ++ '\n' :: (footerL ++ ['\n']))))))))))))))))))) := by
    simp only [generate_markdown_report, String.data_append, hdrL, topicTagL, genTagL,
      dashesL, secAnalysisL, secCritiqueL, secLobbyistL, secSummaryL, footerL]
    simp [List.append_assoc, List.cons_append]
  rw [hdata]
  simp only [splitLines_append_newline, splitLines_cons_newline, hTop, hGen]
  simp [hH, hD, hA, hC, hL, hS, hF, splitLines_nil, hta, htsa, reportLines,
    splitLines_append_newline, splitLines_cons_newline]

/-- Witness for the amended C9 at concrete inputs, including a multi-line
analysis text. -/
theorem c9_report_lines_wit :
    splitLines (generate_markdown_report "UBI" "2025-01-01" "A\nB" "C" "L" "S").data =
      reportLines "UBI" "2025-01-01" "A\nB" "C" "L" "S" :=
  c9_report_lines "UBI" "2025-01-01" "A\nB" "C" "L" "S" (by decide) (by decide)

/-- C10: snapshot slots are monotone — from the moment a stage completes
successfully, every later snapshot of the run carries that stage's extracted
output text unchanged in that stage's slot (the completion snapshot of the
Analyst is the third yielded, of the Critic the fourth, of the Lobbyist the
fifth, of the Synthesizer the sixth and last). -/
theorem c10_slot_monotone (env : RunEnv) :
    (∀ aEv, env.analystRun = Except.ok aEv →
      ∀ snap ∈ (run_policy_analysis env).snapshots.drop 2, snap.analysis = stage_output aEv) ∧
    (∀ aEv cEv, env.analystRun = Except.ok aEv → env.criticRun = Except.ok cEv →
      ∀ snap ∈ (run_policy_analysis env).snapshots.drop 3, snap.critique = stage_output cEv) ∧
    (∀ aEv cEv lEv, env.analystRun = Except.ok aEv → env.criticRun = Except.ok cEv →
      env.lobbyistRun = Except.ok lEv →
      ∀ snap ∈ (run_policy_analysis env).snapshots.drop 4, snap.lobbyist = stage_output lEv) ∧
    (∀ aEv cEv lEv sEv, env.analystRun = Except.ok aEv → env.criticRun = Except.ok cEv →
      env.lobbyistRun = Except.ok lEv → env.summaryRun = Except.ok sEv →
      ∀ snap ∈ (run_policy_analysis env).snapshots.drop 5, snap.summary = stage_output sEv) := by
  rcases env with ⟨topic, gk, tk, cg, ct, setup, aR, cR, lR, sR⟩
  by_cases hauth : resolveKey gk cg = "" ∨ resolveKey tk ct = ""
  · refine ⟨fun aEv hA => ?_, fun aEv cEv hA hC => ?_, fun aEv cEv lEv hA hC hL => ?_,
      fun aEv cEv lEv sEv hA hC hL hS => ?_⟩ <;>
      simp [run_policy_analysis, hauth]
  · cases setup with
    | error e =>
      refine ⟨fun aEv hA => ?_, fun aEv cEv hA hC => ?_, fun aEv cEv lEv hA hC hL => ?_,
        fun aEv cEv lEv sEv hA hC hL hS => ?_⟩ <;>
        simp [run_policy_analysis, hauth]
    | ok u =>
      cases aR with
      | error e =>
        exact ⟨fun aEv hA => by simp at hA, fun aEv cEv hA hC => by simp at hA,
          fun aEv cEv lEv hA hC hL => by simp at hA,
          fun aEv cEv lEv sEv hA hC hL hS => by simp at hA⟩
      | ok aEvs =>
        cases cR with
        | error e =>
          refine ⟨fun aEv hA => ?_, fun aEv cEv hA hC => by simp at hC,
            fun aEv cEv lEv hA hC hL => by simp at hC,
            fun aEv cEv lEv sEv hA hC hL hS => by simp at hC⟩
          simp at hA
          subst hA
          simp [run_policy_analysis, hauth]
        | ok cEvs =>
          cases lR with
          | error e =>
            refine ⟨fun aEv hA => ?_, fun aEv cEv hA hC => ?_,
              fun aEv cEv lEv hA hC hL => by simp at hL,
              fun aEv cEv lEv sEv hA hC hL hS => by simp at hL⟩
            · simp at hA
              subst hA
              simp [run_policy_analysis, hauth]
            · simp at hA hC
              subst hA
              subst hC
              simp [run_policy_analysis, hauth]
          | ok lEvs =>
            cases sR with
            | error e =>
              refine ⟨fun aEv hA => ?_, fun aEv cEv hA hC => ?_,
                fun aEv cEv lEv hA hC hL => ?_,
                fun aEv cEv lEv sEv hA hC hL hS => by simp at hS⟩
              · simp at hA
                subst hA
                simp [run_policy_analysis, hauth]
              · simp at hA hC
                subst hA
                subst hC
                simp [run_policy_analysis, hauth]
              · simp at hA hC hL
                subst hA
                subst hC
                subst hL
                simp [run_policy_analysis, hauth]
            | ok sEvs =>
              refine ⟨fun aEv hA => ?_, fun aEv cEv hA hC => ?_,
                fun aEv cEv lEv hA hC hL => ?_,
                fun aEv cEv lEv sEv hA hC hL hS => ?_⟩
              · simp at hA
                subst hA
                simp [run_policy_analysis, hauth]
              · simp at hA hC
                subst hA
                subst hC
                simp [run_policy_analysis, hauth]
              · simp at hA hC hL
                subst hA
                subst hC
                subst hL
                simp [run_policy_analysis, hauth]
              · simp at hA hC hL hS
                subst hA
                subst hC
                subst hL
                subst hS
                simp [run_policy_analysis, hauth]

/-- Witness for C10 at the all-success run: the final snapshot carries each
stage's extracted output in its slot. -/
theorem c10_slot_monotone_wit :
    Snapshot.analysis ⟨"a", "c", "l", "s"⟩ = stage_output [evText "a"] ∧
    Snapshot.critique ⟨"a", "c", "l", "s"⟩ = stage_output [evText "c"] ∧
    Snapshot.lobbyist ⟨"a", "c", "l", "s"⟩ = stage_output [evText "l"] ∧
    Snapshot.summary ⟨"a", "c", "l", "s"⟩ = stage_output [evText "s"] :=
  ⟨(c10_slot_monotone envAllOk).1 [evText "a"] rfl ⟨"a", "c", "l", "s"⟩ (by decide),
   (c10_slot_monotone envAllOk).2.1 [evText "a"] [evText "c"] rfl rfl
     ⟨"a", "c", "l", "s"⟩ (by decide),
   (c10_slot_monotone envAllOk).2.2.1 [evText "a"] [evText "c"] [evText "l"] rfl rfl rfl
     ⟨"a", "c", "l", "s"⟩ (by decide),
   (c10_slot_monotone envAllOk).2.2.2 [evText "a"] [evText "c"] [evText "l"] [evText "s"]
     rfl rfl rfl rfl ⟨"a", "c", "l", "s"⟩ (by decide)⟩

end PopuAgent
